import Mathlib

/-
Verification development for the automatic shopping trolley controller
(automatic_shopping_trolley.py).  The controller's pure decision logic is
shallowly embedded: sensor bits are Booleans (true stands for the GPIO value 1,
white / off-line; false stands for 0, dark / on-line), single-character motor
commands are Chars, line states and node names are Strings as in the source,
and each polling loop is a function over the finite list of inputs (serial
lines and sensor readings) it would observe, one list element per loop
iteration; exhausting the list models the loop's timeout being reached.
Effects on the hardware and the remote store are recorded as lists of sent
commands and reported status strings.
-/

namespace Trolley

/-- Commands for the ESP32 motor peripheral, as in the source constants. -/
def CMD_FORWARD : Char := 'F'

/-- Backward drive command. -/
def CMD_BACKWARD : Char := 'B'

/-- Stop command. -/
def CMD_STOP : Char := 'S'

/-- Pivot left command. -/
def CMD_LEFT : Char := 'L'

/-- Pivot right command. -/
def CMD_RIGHT : Char := 'R'

/-- Slight left correction (veer left). -/
def CMD_SLIGHT_LEFT : Char := 'M'

/-- Slight right correction (veer right). -/
def CMD_SLIGHT_RIGHT : Char := 'N'

/-- Line follower state constant. -/
def LINE_CENTERED : String := "CENTERED"

/-- Line follower state constant: trolley too far left, needs right correction. -/
def LINE_SLIGHT_LEFT : String := "SLIGHT_LEFT"

/-- Line follower state constant: trolley too far right, needs left correction. -/
def LINE_SLIGHT_RIGHT : String := "SLIGHT_RIGHT"

/-- Line follower state constant for a lost line.  The source defines the
constant but the logic returning it is commented out in LineFollower. -/
def LINE_LOST : String := "LOST"

/-- Navigator.__init__ sets navigation_timeout to 60 seconds. -/
def navigation_timeout : Nat := 60

/-- Navigator.__init__ sets turn_timeout to 20 seconds. -/
def turn_timeout : Nat := 20

/-- Character-level model of Python's str.startswith: the pattern's characters
are a prefix of the string's characters. -/
def strStartsWith (s pre : String) : Bool :=
  pre.data.isPrefixOf s.data

/-- Character-level model of Python's slice s[n:]: drop the first n
characters. -/
def strDrop (s : String) (n : Nat) : String :=
  String.mk (s.data.drop n)

/-- Character-level model of Python's str.lower. -/
def strToLower (s : String) : String :=
  String.mk (s.data.map Char.toLower)

/-- One infrared sensor reading: left, center, right bits.  true models the
integer 1 (white, off line), false models 0 (dark, on line). -/
structure IrReading where
  left : Bool
  center : Bool
  right : Bool
deriving DecidableEq, Repr

/-- LineFollower.get_state, translated branch by branch from the source,
including the two conditions whose comments say 0 1 1 and 1 1 0 but whose code
tests left_sensor three times, and the final default return of LINE_CENTERED
that stands where the commented-out LINE_LOST cases were. -/
def get_state (left_sensor center_sensor right_sensor : Bool) : String :=
  if left_sensor && !center_sensor && right_sensor then LINE_CENTERED
  else if left_sensor && !center_sensor && !right_sensor then LINE_SLIGHT_LEFT
  else if !left_sensor && !center_sensor && right_sensor then LINE_SLIGHT_RIGHT
  else if !left_sensor && !center_sensor && !right_sensor then LINE_CENTERED
  else if !left_sensor && left_sensor && left_sensor then LINE_SLIGHT_RIGHT
  else if left_sensor && left_sensor && !right_sensor then LINE_SLIGHT_LEFT
  else LINE_CENTERED

/-- Classifier applied to a packed reading, as the navigator's loop does with
get_state applied to the unpacked sensor tuple. -/
def classify (r : IrReading) : String :=
  get_state r.left r.center r.right

/-- The stop condition of Navigator.execute_simple_turn on one polled reading:
the source tests left == 1 or center == 1 or right == 0. -/
def turnStopCondition (r : IrReading) : Bool :=
  r.left || r.center || !r.right

/-- Outcome of a turn: success flag, commands sent, statuses reported. -/
structure TurnResult where
  success : Bool
  sent : List Char
  statuses : List String
deriving DecidableEq, Repr

/-- The polling loop of Navigator.execute_simple_turn over the successive
sensor readings (taken after the fixed 1.5 second pre-poll sleep).  A reading
satisfying the stop condition sends CMD_STOP and returns success; exhausting
the readings models the turn_timeout elapsing: CMD_STOP is sent and the
error:turn_timeout status carrying the turn command is reported. -/
def turnPoll (turn_command : Char) : List IrReading → TurnResult
  | [] =>
      { success := false
        sent := [CMD_STOP]
        statuses := ["error:turn_timeout:".push turn_command] }
  | r :: rest =>
      if turnStopCondition r then
        { success := true, sent := [CMD_STOP], statuses := [] }
      else
        turnPoll turn_command rest

/-- Navigator.execute_simple_turn: the turn command is sent once, then the
sensors are polled.  The request id only routes the status message and is
omitted; readings are those observed at the loop's polling instants. -/
def execute_simple_turn (turn_command : Char) (readings : List IrReading) : TurnResult :=
  let r := turnPoll turn_command readings
  { r with sent := turn_command :: r.sent }

/-- Navigator._get_turn_for_transition (the source name carries a leading
underscore): the finite transition policy over node-name prefixes. -/
def get_turn_for_transition (start_node end_node : String) : Option Char :=
  if start_node == "home" && strStartsWith end_node "RFJ" then none
  else if strStartsWith start_node "RFJ" && strStartsWith end_node "pdt" then some CMD_RIGHT
  else if strStartsWith start_node "RBJ" && strStartsWith end_node "RFJ" then some CMD_RIGHT
  else if strStartsWith start_node "RBJ" && strStartsWith end_node "RBJ" then some CMD_LEFT
  else if strStartsWith start_node "RFJ" && end_node == "home" then some CMD_RIGHT
  else none

/-- What one iteration of a navigation or reverse loop observes: the optional
serial line returned by receive_line, and the infrared sensor reading. -/
structure NavEvent where
  serialLine : Option String
  sensors : IrReading
deriving DecidableEq, Repr

/-- Outcome of a navigation call: success flag, the navigator's current_node
after the call, commands sent, statuses reported. -/
structure NavResult where
  success : Bool
  finalNode : String
  sent : List Char
  statuses : List String
deriving DecidableEq, Repr

/-- Whether a received serial line is an RFID line whose lower-cased UID
payload equals the expected UID, as tested in both navigation loops. -/
def isMatchingLine (expected : String) : Option String → Bool
  | some s => strStartsWith s "RFID:" && (strToLower (strDrop s 5) == expected)
  | none => false

/-- The required steering command for a classified line state inside
navigate_to_node's loop; for any other state the previous command is kept
(the source initialises required_command to last_command_sent). -/
def requiredCommandFor (line_state : String) (last_command_sent : Char) : Char :=
  if line_state == LINE_CENTERED then CMD_FORWARD
  else if line_state == LINE_SLIGHT_LEFT then CMD_SLIGHT_RIGHT
  else if line_state == LINE_SLIGHT_RIGHT then CMD_SLIGHT_LEFT
  else last_command_sent

/-- The while loop of Navigator.navigate_to_node over its successive
iteration inputs.  Each iteration first checks for an RFID serial line: a
matching UID ends the loop with success, updating the node to the destination
(the peripheral has already stopped, so no stop command is sent here and
last_command_sent is merely set to CMD_STOP internally); a mismatching UID
re-sends CMD_FORWARD and skips line correction for the iteration.  Otherwise
the sensor reading is classified and the required steering command is sent
only if it differs from the last command sent.  Exhausting the events models
the navigation_timeout elapsing: CMD_STOP is sent and the error:nav_timeout
status is reported. -/
def navLoop (dest expected node : String) (last_command_sent : Char) :
    List NavEvent → NavResult
  | [] =>
      { success := false
        finalNode := node
        sent := [CMD_STOP]
        statuses := ["error:nav_timeout:" ++ node ++ "->" ++ dest] }
  | e :: rest =>
      let corrected :=
        let line_state := classify e.sensors
        let required := requiredCommandFor line_state last_command_sent
        if required == last_command_sent then
          navLoop dest expected node last_command_sent rest
        else
          let r := navLoop dest expected node required rest
          { r with sent := required :: r.sent }
      match e.serialLine with
      | some s =>
          if strStartsWith s "RFID:" then
            if strToLower (strDrop s 5) == expected then
              { success := true
                finalNode := dest
                sent := []
                statuses := ["arrived_at:" ++ dest] }
            else
              let r := navLoop dest expected node CMD_FORWARD rest
              { r with sent := CMD_FORWARD :: r.sent }
          else corrected
      | none => corrected

/-- Navigator.navigate_to_node.  The expected UID supplied by
FirebaseComm.get_expected_uid for the destination is passed as uid (already
lower-cased, none when the registry has no entry); turnReadings are the sensor
readings an initial turn would poll; events are the iteration inputs of the
main loop.  Mirrors the source: equal source and destination return success
immediately; the moving_to status precedes the UID lookup; a missing UID
reports error:no_uid and fails without moving; an initial turn per the
transition policy runs first and its failure aborts the call; otherwise
CMD_FORWARD is sent and the correction loop runs with last_command_sent
initialised to CMD_FORWARD. -/
def navigate_to_node (current_node dest : String) (uid : Option String)
    (turnReadings : List IrReading) (events : List NavEvent) : NavResult :=
  if current_node == dest then
    { success := true, finalNode := current_node, sent := [], statuses := [] }
  else
    match uid with
    | none =>
        { success := false
          finalNode := current_node
          sent := []
          statuses := ["moving_to:" ++ dest, "error:no_uid:" ++ dest] }
    | some expected =>
        match get_turn_for_transition current_node dest with
        | some t =>
            let tr := execute_simple_turn t turnReadings
            if tr.success then
              let r := navLoop dest expected current_node CMD_FORWARD events
              { success := r.success
                finalNode := r.finalNode
                sent := tr.sent ++ CMD_FORWARD :: r.sent
                statuses := ("moving_to:" ++ dest) :: (tr.statuses ++ r.statuses) }
            else
              { success := false
                finalNode := current_node
                sent := tr.sent
                statuses := ("moving_to:" ++ dest) :: tr.statuses }
        | none =>
            let r := navLoop dest expected current_node CMD_FORWARD events
            { success := r.success
              finalNode := r.finalNode
              sent := CMD_FORWARD :: r.sent
              statuses := ("moving_to:" ++ dest) :: r.statuses }

/-- The while loop of Navigator.reverse_until_node over the successive serial
lines it observes (no line following happens while reversing).  A matching
RFID line sends CMD_STOP, updates the node and reports arrival; a mismatching
RFID line re-sends CMD_BACKWARD; exhausting the lines models the
navigation_timeout elapsing, sending CMD_STOP and reporting
error:reverse_timeout. -/
def reverseLoop (dest expected node : String) : List (Option String) → NavResult
  | [] =>
      { success := false
        finalNode := node
        sent := [CMD_STOP]
        statuses := ["error:reverse_timeout:" ++ node ++ "->" ++ dest] }
  | l :: rest =>
      match l with
      | some s =>
          if strStartsWith s "RFID:" then
            if strToLower (strDrop s 5) == expected then
              { success := true
                finalNode := dest
                sent := [CMD_STOP]
                statuses := ["arrived_at:" ++ dest] }
            else
              let r := reverseLoop dest expected node rest
              { r with sent := CMD_BACKWARD :: r.sent }
          else reverseLoop dest expected node rest
      | none => reverseLoop dest expected node rest

/-- Whether a list contains two equal adjacent elements; formalises the
hypothesis of the command de-duplication property that consecutive classifier
outputs repeat. -/
def hasAdjRepeat : List String → Bool
  | a :: b :: rest => (a == b) || hasAdjRepeat (b :: rest)
  | _ => false

/-- A dynamically typed quantity value as it may arrive in a cart delta from
the remote store: an integer, a string, or null. -/
inductive PyVal where
  | pyInt (n : Int)
  | pyStr (s : String)
  | pyNone
deriving DecidableEq, Repr

/-- Digit-string to number: all characters must be decimal digits and at
least one must be present. -/
def natOfDigits (ds : List Char) : Option Nat :=
  if ds.isEmpty then none
  else if ds.all Char.isDigit then
    some (ds.foldl (fun acc c => acc * 10 + (c.toNat - 48)) 0)
  else none

/-- Python's int(...) applied to a string, at character level: surrounding
spaces are stripped, an optional sign precedes the digits; anything else
raises ValueError, modelled as none. -/
def pyIntOfString (s : String) : Option Int :=
  let t := (((s.data.dropWhile (fun c => c == ' ')).reverse.dropWhile
    (fun c => c == ' ')).reverse)
  match t with
  | '-' :: rest => (natOfDigits rest).map (fun n => -(n : Int))
  | '+' :: rest => (natOfDigits rest).map (fun n => (n : Int))
  | _ => (natOfDigits t).map (fun n => (n : Int))

/-- Python's int(quantity) as used by the merge loop: an int converts to
itself, a string is parsed, None raises TypeError (none); the enclosing
except (ValueError, TypeError) turns a failed conversion into skipping the
entry. -/
def pyToInt : PyVal → Option Int
  | .pyInt n => some n
  | .pyStr s => pyIntOfString s
  | .pyNone => none

/-- existing_cart.get(product_id, 0): the stored quantity, defaulting to 0. -/
def getq (cart : List (String × Int)) (pid : String) : Int :=
  match cart.find? (fun p => p.1 == pid) with
  | some p => p.2
  | none => 0

/-- Python dict assignment existing_cart[product_id] = q: a present key is
updated in place (insertion order preserved), an absent key is appended. -/
def setq (cart : List (String × Int)) (pid : String) (q : Int) :
    List (String × Int) :=
  if cart.any (fun p => p.1 == pid) then
    cart.map (fun p => if p.1 == pid then (p.1, q) else p)
  else cart ++ [(pid, q)]

/-- One iteration of the merge loop in
TrolleyController.process_shopping_list: the reserved keys processed and
action are skipped; a quantity int() cannot convert is skipped by the
except-continue; otherwise the converted quantity is added to the existing
quantity. -/
def mergeItem (cart : List (String × Int)) (pid : String) (v : PyVal) :
    List (String × Int) :=
  if pid == "processed" || pid == "action" then cart
  else
    match pyToInt v with
    | none => cart
    | some add_qty => setq cart pid (getq cart pid + add_qty)

/-- The merge loop over all items of the incoming cart delta, in dict
iteration order. -/
def mergeCart (existing : List (String × Int)) (delta : List (String × PyVal)) :
    List (String × Int) :=
  delta.foldl (fun c pv => mergeItem c pv.1 pv.2) existing

/-- final_cart, the persisted result: only entries with strictly positive
quantity survive the comprehension filter. -/
def finalCart (existing : List (String × Int)) (delta : List (String × PyVal)) :
    List (String × Int) :=
  (mergeCart existing delta).filter (fun p => decide (0 < p.2))

/-- Whether a delta entry is ignored by the merge loop: a reserved key, or a
quantity int() cannot convert. -/
def ignoredEntry (pid : String) (v : PyVal) : Bool :=
  (pid == "processed" || pid == "action") || (pyToInt v).isNone

/-- Effects performed by the outermost request-handling boundary in
TrolleyController._handle_new_request_callback (the source name carries a
leading underscore): whether the processing flag was set for the request,
the statuses and commands the boundary itself issued (those issued inside
process_request are abstracted into its outcome), and whether the processing
flag was deleted. -/
structure HandlerEffects where
  flagSet : Bool
  statuses : List String
  commands : List Char
  flagDeleted : Bool
deriving DecidableEq, Repr

/-- TrolleyController._handle_new_request_callback: an event that is not put
or patch, an empty or root-path request id, a missing payload, or a request
already being processed returns before the flag is set; otherwise the
processing flag is set, process_request runs inside try, the except branch
reports error:critical_processing_exception and sends CMD_STOP, and the
finally branch deletes the processing flag on both outcomes. -/
def handle_new_request_callback (event_type request_id : String)
    (dataIsSome alreadyProcessing : Bool)
    (processOutcome : Except String Unit) : HandlerEffects :=
  if !(event_type == "put" || event_type == "patch") then
    { flagSet := false, statuses := [], commands := [], flagDeleted := false }
  else if request_id == "" || request_id == "trolleyRequests" || !dataIsSome then
    { flagSet := false, statuses := [], commands := [], flagDeleted := false }
  else if alreadyProcessing then
    { flagSet := false, statuses := [], commands := [], flagDeleted := false }
  else
    match processOutcome with
    | Except.ok _ =>
        { flagSet := true, statuses := [], commands := [], flagDeleted := true }
    | Except.error _ =>
        { flagSet := true
          statuses := ["error:critical_processing_exception"]
          commands := [CMD_STOP]
          flagDeleted := true }

/-- The static node mapping NODE_MAPPING, in source order. -/
def NODE_MAPPING : List (String × Nat) :=
  [("home", 0),
   ("RFJ1", 1), ("RFJ2", 2), ("RFJ3", 3),
   ("RBJ1", 4), ("RBJ2", 5), ("RBJ3", 6),
   ("pdt1", 7), ("pdt2", 8), ("pdt3", 9),
   ("pdt4", 10), ("pdt5", 11), ("pdt6", 12),
   ("pdt7", 13), ("pdt8", 14), ("pdt9", 15)]

/-- The static product-to-row table PRODUCT_ROWS. -/
def PRODUCT_ROWS : List (String × Nat) :=
  [("pdt1", 1), ("pdt2", 1), ("pdt3", 1),
   ("pdt4", 2), ("pdt5", 2), ("pdt6", 2),
   ("pdt7", 3), ("pdt8", 3), ("pdt9", 3)]

/-- The membership test node_name in NODE_MAPPING. -/
def inNodeMapping (name : String) : Bool :=
  NODE_MAPPING.any (fun p => p.1 == name)

/-- Navigator.set_current_position: assigns the given name when it is a
NODE_MAPPING key or is home (home is itself a NODE_MAPPING key, so the second
disjunct is redundant); otherwise only a warning is logged and current_node
is left unchanged. -/
def set_current_position (current_node node_name : String) : String :=
  if inNodeMapping node_name || node_name == "home" then node_name
  else current_node

/-- Navigator.reverse_until_node: refuses to reverse from or to home, reports
the reversing_to status, fails with error:no_uid when the destination UID does
not resolve, and otherwise sends CMD_BACKWARD and runs the reverse loop. -/
def reverse_until_node (current_node dest : String) (uid : Option String)
    (lines : List (Option String)) : NavResult :=
  if current_node == "home" || dest == "home" then
    { success := false, finalNode := current_node, sent := [], statuses := [] }
  else
    match uid with
    | none =>
        { success := false
          finalNode := current_node
          sent := []
          statuses := ["reversing_to:" ++ dest, "error:no_uid:" ++ dest] }
    | some expected =>
        let r := reverseLoop dest expected current_node lines
        { success := r.success
          finalNode := r.finalNode
          sent := CMD_BACKWARD :: r.sent
          statuses := ("reversing_to:" ++ dest) :: r.statuses }

end Trolley

namespace Trolley

/-- C2 counterexample: the claim says the all-light input (1,1,1) maps to Lost
and the unlisted pattern (0,1,0) maps to Lost defensively; on the code both
fall through to the default branch and yield CENTERED, which differs from
LOST, so neither maps to Lost. -/
theorem get_state_all_light_counterexample :
    get_state true true true = LINE_CENTERED ∧
    (get_state true true true == LINE_LOST) = false ∧
    get_state false true false = LINE_CENTERED ∧
    (get_state false true false == LINE_LOST) = false ∧
    (LINE_CENTERED == LINE_LOST) = false := by
  decide

/-- C2 amended: the Lost-returning logic is commented out, so get_state never
returns LOST for any input.  Its complete truth table on (left, center,
right), with true standing for the bit 1: the policy rows (1,0,1) and (0,0,0)
give CENTERED, (1,0,0) and (1,1,0) give SLIGHT_LEFT, (0,0,1) gives
SLIGHT_RIGHT; the all-light input (1,1,1), the unlisted pattern (0,1,0), and
(0,1,1) - whose intended SLIGHT_RIGHT branch tests left_sensor three times
and so is dead code - all fall through to the default branch and give
CENTERED. -/
theorem get_state_never_lost_defaults_centered :
    (∀ l c r : Bool, (get_state l c r == LINE_LOST) = false) ∧
    get_state false false false = LINE_CENTERED ∧
    get_state false false true = LINE_SLIGHT_RIGHT ∧
    get_state false true false = LINE_CENTERED ∧
    get_state false true true = LINE_CENTERED ∧
    get_state true false false = LINE_SLIGHT_LEFT ∧
    get_state true false true = LINE_CENTERED ∧
    get_state true true false = LINE_SLIGHT_LEFT ∧
    get_state true true true = LINE_CENTERED := by
  decide

/-- C3 counterexample: the claim says the turn succeeds exactly when the
classifier reports Centered on the polled reading; on the code the reading
(1,0,0), which the classifier reports as SLIGHT_LEFT, satisfies the stop test
left == 1 or center == 1 or right == 0 and terminates the turn successfully. -/
theorem turn_succeeds_on_non_centered_counterexample :
    (execute_simple_turn CMD_RIGHT [⟨true, false, false⟩]).success = true ∧
    (get_state true false false == LINE_CENTERED) = false := by
  decide

/-- C3 amended: execute_simple_turn issues the turn command once (its first
sent command), sleeps a fixed 1.5 seconds before the first poll, and then
returns success exactly when some polled reading satisfies
left = 1 or center = 1 or right = 0; the classifier is never consulted, so
readings it would call SLIGHT_LEFT or SLIGHT_RIGHT can also terminate the turn,
and only the reading (0,0,1) keeps turning. -/
theorem turn_success_iff_any_sensor_stop_condition
    (turn_command : Char) (readings : List IrReading) :
    ((execute_simple_turn turn_command readings).success = true ↔
      ∃ r ∈ readings, turnStopCondition r = true) ∧
    (execute_simple_turn turn_command readings).sent.head? = some turn_command := by
  constructor
  · unfold execute_simple_turn
    induction readings with
    | nil => simp [turnPoll]
    | cons r rest ih =>
        by_cases h : turnStopCondition r
        · simp [turnPoll, h]
        · simpa [turnPoll, h] using ih
  · unfold execute_simple_turn
    simp

/-- Dichotomy for the navigation loop: either some iteration received a
matching RFID line, the loop succeeded and the node moved to the destination,
or no iteration did, the loop failed (timeout) and the node is unchanged. -/
theorem navLoop_cases (dest expected node : String) (last : Char)
    (events : List NavEvent) :
    ((navLoop dest expected node last events).success = true ∧
     (navLoop dest expected node last events).finalNode = dest ∧
     ∃ e ∈ events, isMatchingLine expected e.serialLine = true) ∨
    ((navLoop dest expected node last events).success = false ∧
     (navLoop dest expected node last events).finalNode = node ∧
     ∀ e ∈ events, isMatchingLine expected e.serialLine = false) := by
  induction events generalizing last with
  | nil => right; simp [navLoop]
  | cons e rest ih =>
      obtain ⟨sl, sens⟩ := e
      cases sl with
      | none =>
          by_cases hreq :
              (requiredCommandFor (classify sens) last == last) = true
          · rcases ih last with h | h
            · left
              refine ⟨?_, ?_, ?_⟩ <;>
                simp [navLoop, hreq, h.1, h.2.1, isMatchingLine]
              exact h.2.2
            · right
              refine ⟨?_, ?_, ?_⟩ <;>
                simp [navLoop, hreq, h.1, h.2.1, isMatchingLine]
              exact h.2.2
          · rcases ih (requiredCommandFor (classify sens) last) with h | h
            · left
              refine ⟨?_, ?_, ?_⟩ <;>
                simp [navLoop, hreq, h.1, h.2.1, isMatchingLine]
              exact h.2.2
            · right
              refine ⟨?_, ?_, ?_⟩ <;>
                simp [navLoop, hreq, h.1, h.2.1, isMatchingLine]
              exact h.2.2
      | some s =>
          by_cases hpre : strStartsWith s "RFID:" = true
          · by_cases huid : (strToLower (strDrop s 5) == expected) = true
            · left
              refine ⟨?_, ?_, ?_⟩ <;>
                simp [navLoop, hpre, huid, isMatchingLine]
            · rcases ih CMD_FORWARD with h | h
              · left
                refine ⟨?_, ?_, ?_⟩ <;>
                  simp [navLoop, hpre, huid, h.1, h.2.1, isMatchingLine]
                exact h.2.2
              · right
                refine ⟨?_, ?_, ?_⟩ <;>
                  simp [navLoop, hpre, huid, h.1, h.2.1, isMatchingLine]
                exact h.2.2
          · by_cases hreq :
                (requiredCommandFor (classify sens) last == last) = true
            · rcases ih last with h | h
              · left
                refine ⟨?_, ?_, ?_⟩ <;>
                  simp [navLoop, hpre, hreq, h.1, h.2.1, isMatchingLine]
                exact h.2.2
              · right
                refine ⟨?_, ?_, ?_⟩ <;>
                  simp [navLoop, hpre, hreq, h.1, h.2.1, isMatchingLine]
                exact h.2.2
            · rcases ih (requiredCommandFor (classify sens) last) with h | h
              · left
                refine ⟨?_, ?_, ?_⟩ <;>
                  simp [navLoop, hpre, hreq, h.1, h.2.1, isMatchingLine]
                exact h.2.2
              · right
                refine ⟨?_, ?_, ?_⟩ <;>
                  simp [navLoop, hpre, hreq, h.1, h.2.1, isMatchingLine]
                exact h.2.2

/-- Dichotomy for the reverse loop, analogous to navLoop_cases. -/
theorem reverseLoop_cases (dest expected node : String)
    (lines : List (Option String)) :
    ((reverseLoop dest expected node lines).success = true ∧
     (reverseLoop dest expected node lines).finalNode = dest ∧
     ∃ l ∈ lines, isMatchingLine expected l = true) ∨
    ((reverseLoop dest expected node lines).success = false ∧
     (reverseLoop dest expected node lines).finalNode = node ∧
     ∀ l ∈ lines, isMatchingLine expected l = false) := by
  induction lines with
  | nil => right; simp [reverseLoop]
  | cons l rest ih =>
      cases l with
      | none =>
          rcases ih with h | h
          · left
            refine ⟨?_, ?_, ?_⟩ <;>
              simp [reverseLoop, h.1, h.2.1, isMatchingLine]
            exact h.2.2
          · right
            refine ⟨?_, ?_, ?_⟩ <;>
              simp [reverseLoop, h.1, h.2.1, isMatchingLine]
            exact h.2.2
      | some s =>
          by_cases hpre : strStartsWith s "RFID:" = true
          · by_cases huid : (strToLower (strDrop s 5) == expected) = true
            · left
              refine ⟨?_, ?_, ?_⟩ <;>
                simp [reverseLoop, hpre, huid, isMatchingLine]
            · rcases ih with h | h
              · left
                refine ⟨?_, ?_, ?_⟩ <;>
                  simp [reverseLoop, hpre, huid, h.1, h.2.1, isMatchingLine]
                exact h.2.2
              · right
                refine ⟨?_, ?_, ?_⟩ <;>
                  simp [reverseLoop, hpre, huid, h.1, h.2.1, isMatchingLine]
                exact h.2.2
          · rcases ih with h | h
            · left
              refine ⟨?_, ?_, ?_⟩ <;>
                simp [reverseLoop, hpre, h.1, h.2.1, isMatchingLine]
              exact h.2.2
            · right
              refine ⟨?_, ?_, ?_⟩ <;>
                simp [reverseLoop, hpre, h.1, h.2.1, isMatchingLine]
              exact h.2.2

/-- The final node of a navigation call is either the starting node or the
destination, whatever inputs arrive. -/
theorem navigate_to_node_finalNode_mem (current_node dest : String)
    (uid : Option String) (tr : List IrReading) (ev : List NavEvent) :
    (navigate_to_node current_node dest uid tr ev).finalNode = current_node ∨
    (navigate_to_node current_node dest uid tr ev).finalNode = dest := by
  unfold navigate_to_node
  by_cases hcd : (current_node == dest) = true
  · simp [hcd]
  · cases uid with
    | none => simp [hcd]
    | some expected =>
        cases hturn : get_turn_for_transition current_node dest with
        | none =>
            rcases navLoop_cases dest expected current_node CMD_FORWARD ev with
              h | h <;> simp [hcd, hturn, h.2.1]
        | some t =>
            by_cases hts : (execute_simple_turn t tr).success = true
            · rcases navLoop_cases dest expected current_node CMD_FORWARD ev with
                h | h <;> simp [hcd, hturn, hts, h.2.1]
            · simp [hcd, hturn, hts]

/-- C1: with a destination whose expected UID resolves, current_node is
updated if and only if a received RFID line carries the expected UID.  When no
received line matches, navigate_to_node leaves current_node unchanged and
succeeds only in the degenerate already-there case, and reverse_until_node
leaves current_node unchanged and fails; in general the final node is either
the starting node or the destination, and at the loop level the node equals
the destination exactly when it already was the destination or some iteration
received a matching RFID line. -/
theorem current_node_updates_only_on_uid_match
    (current_node dest expected : String)
    (turnReadings tr2 : List IrReading) (events ev2 : List NavEvent)
    (lines : List (Option String))
    (hnav : ∀ e ∈ events, isMatchingLine expected e.serialLine = false)
    (hrev : ∀ l ∈ lines, isMatchingLine expected l = false) :
    (navigate_to_node current_node dest (some expected) turnReadings events).finalNode
        = current_node ∧
    (navigate_to_node current_node dest (some expected) turnReadings events).success
        = (current_node == dest) ∧
    (reverse_until_node current_node dest (some expected) lines).finalNode
        = current_node ∧
    (reverse_until_node current_node dest (some expected) lines).success = false ∧
    ((navigate_to_node current_node dest (some expected) tr2 ev2).finalNode
        = current_node ∨
     (navigate_to_node current_node dest (some expected) tr2 ev2).finalNode = dest) ∧
    ((navLoop dest expected current_node CMD_FORWARD ev2).finalNode = dest ↔
      current_node = dest ∨ ∃ e ∈ ev2, isMatchingLine expected e.serialLine = true) := by
  have hloop :
      (navLoop dest expected current_node CMD_FORWARD events).success = false ∧
      (navLoop dest expected current_node CMD_FORWARD events).finalNode
          = current_node := by
    rcases navLoop_cases dest expected current_node CMD_FORWARD events with h | h
    · obtain ⟨e, he, hm⟩ := h.2.2
      exact absurd hm (by simp [hnav e he])
    · exact ⟨h.1, h.2.1⟩
  have hrloop :
      (reverseLoop dest expected current_node lines).success = false ∧
      (reverseLoop dest expected current_node lines).finalNode = current_node := by
    rcases reverseLoop_cases dest expected current_node lines with h | h
    · obtain ⟨l, hl, hm⟩ := h.2.2
      exact absurd hm (by simp [hrev l hl])
    · exact ⟨h.1, h.2.1⟩
  refine ⟨?_, ?_, ?_, ?_, ?_, ?_⟩
  · unfold navigate_to_node
    by_cases hcd : (current_node == dest) = true
    · simp [hcd]
    · cases hturn : get_turn_for_transition current_node dest with
      | none => simp [hcd, hturn, hloop.2]
      | some t =>
          by_cases hts : (execute_simple_turn t turnReadings).success = true
          · simp [hcd, hturn, hts, hloop.2]
          · simp [hcd, hturn, hts]
  · unfold navigate_to_node
    by_cases hcd : (current_node == dest) = true
    · simp [hcd]
    · cases hturn : get_turn_for_transition current_node dest with
      | none => simp [hcd, hturn, hloop.1]
      | some t =>
          by_cases hts : (execute_simple_turn t turnReadings).success = true
          · simp [hcd, hturn, hts, hloop.1]
          · simp [hcd, hturn, hts]
  · unfold reverse_until_node
    by_cases hhome : (current_node == "home" || dest == "home") = true
    · simp [hhome]
    · simp [hhome, hrloop.2]
  · unfold reverse_until_node
    by_cases hhome : (current_node == "home" || dest == "home") = true
    · simp [hhome]
    · simp [hhome, hrloop.1]
  · exact navigate_to_node_finalNode_mem current_node dest (some expected) tr2 ev2
  · rcases navLoop_cases dest expected current_node CMD_FORWARD ev2 with h | h
    · simp [h.2.1]
      exact Or.inr h.2.2
    · constructor
      · intro hfn
        exact Or.inl (h.2.1.symm.trans hfn)
      · rintro (hcd | ⟨e, he, hm⟩)
        · exact h.2.1.trans hcd
        · exact absurd hm (by simp [h.2.2 e he])

/-- Witness for C1 at a concrete run: one mismatching RFID line and one plain
iteration, with a successful initial turn reading. -/
theorem current_node_updates_only_on_uid_match_witness :
    (∀ e ∈ ([⟨some "RFID:xx", ⟨true, false, true⟩⟩, ⟨none, ⟨true, false, false⟩⟩] :
        List NavEvent), isMatchingLine "ab" e.serialLine = false) ∧
    (∀ l ∈ ([some "RFID:xx", none] : List (Option String)),
        isMatchingLine "ab" l = false) ∧
    ((navigate_to_node "RFJ1" "pdt1" (some "ab") [⟨true, false, true⟩]
        [⟨some "RFID:xx", ⟨true, false, true⟩⟩, ⟨none, ⟨true, false, false⟩⟩]).finalNode
        = "RFJ1" ∧
     (navigate_to_node "RFJ1" "pdt1" (some "ab") [⟨true, false, true⟩]
        [⟨some "RFID:xx", ⟨true, false, true⟩⟩, ⟨none, ⟨true, false, false⟩⟩]).success
        = ("RFJ1" == "pdt1") ∧
     (reverse_until_node "RFJ1" "pdt1" (some "ab") [some "RFID:xx", none]).finalNode
        = "RFJ1" ∧
     (reverse_until_node "RFJ1" "pdt1" (some "ab") [some "RFID:xx", none]).success
        = false ∧
     ((navigate_to_node "RFJ1" "pdt1" (some "ab") [] []).finalNode = "RFJ1" ∨
      (navigate_to_node "RFJ1" "pdt1" (some "ab") [] []).finalNode = "pdt1") ∧
     ((navLoop "pdt1" "ab" "RFJ1" CMD_FORWARD []).finalNode = "pdt1" ↔
       "RFJ1" = "pdt1" ∨ ∃ e ∈ ([] : List NavEvent),
         isMatchingLine "ab" e.serialLine = true)) :=
  ⟨by decide, by decide,
   current_node_updates_only_on_uid_match "RFJ1" "pdt1" "ab"
     [⟨true, false, true⟩] []
     [⟨some "RFID:xx", ⟨true, false, true⟩⟩, ⟨none, ⟨true, false, false⟩⟩] []
     [some "RFID:xx", none] (by decide) (by decide)⟩

/-- String append acts as list append on the underlying character data. -/
theorem append_data (a b : String) : (a ++ b).data = a.data ++ b.data := rfl

/-- String push appends one character to the underlying data. -/
theorem push_data (s : String) (c : Char) : (s.push c).data = s.data ++ [c] := rfl

/-- Every status reported by the navigation loop is either the arrival status
or the navigation timeout status. -/
theorem navLoop_statuses (dest expected node : String) (last : Char)
    (events : List NavEvent) :
    ∀ s ∈ (navLoop dest expected node last events).statuses,
      s = "arrived_at:" ++ dest ∨
      s = "error:nav_timeout:" ++ node ++ "->" ++ dest := by
  induction events generalizing last with
  | nil => simp [navLoop]
  | cons e rest ih =>
      obtain ⟨sl, sens⟩ := e
      cases sl with
      | none =>
          by_cases hreq :
              (requiredCommandFor (classify sens) last == last) = true
          · simpa [navLoop, hreq] using ih last
          · simpa [navLoop, hreq] using
              ih (requiredCommandFor (classify sens) last)
      | some s =>
          by_cases hpre : strStartsWith s "RFID:" = true
          · by_cases huid : (strToLower (strDrop s 5) == expected) = true
            · simp [navLoop, hpre, huid]
            · simpa [navLoop, hpre, huid] using ih CMD_FORWARD
          · by_cases hreq :
                (requiredCommandFor (classify sens) last == last) = true
            · simpa [navLoop, hpre, hreq] using ih last
            · simpa [navLoop, hpre, hreq] using
                ih (requiredCommandFor (classify sens) last)

/-- Every status reported by the turn polling loop is the turn timeout
status. -/
theorem turnPoll_statuses (turn_command : Char) (readings : List IrReading) :
    ∀ s ∈ (turnPoll turn_command readings).statuses,
      s = "error:turn_timeout:".push turn_command := by
  induction readings with
  | nil => simp [turnPoll]
  | cons r rest ih =>
      by_cases h : turnStopCondition r = true
      · simp [turnPoll, h]
      · simpa [turnPoll, h] using ih

/-- Every status reported by a navigation call has one of the five forms
produced by the source: moving_to, no_uid, turn_timeout, arrived_at, or
nav_timeout. -/
theorem navigate_to_node_statuses (current_node dest : String)
    (uid : Option String) (tr : List IrReading) (ev : List NavEvent) :
    ∀ s ∈ (navigate_to_node current_node dest uid tr ev).statuses,
      s = "moving_to:" ++ dest ∨
      s = "error:no_uid:" ++ dest ∨
      (∃ c, s = "error:turn_timeout:".push c) ∨
      s = "arrived_at:" ++ dest ∨
      s = "error:nav_timeout:" ++ current_node ++ "->" ++ dest := by
  unfold navigate_to_node
  by_cases hcd : (current_node == dest) = true
  · simp [hcd]
  · cases uid with
    | none => simp [hcd]
    | some expected =>
        cases hturn : get_turn_for_transition current_node dest with
        | none =>
            intro s hs
            simp only [hcd, hturn] at hs
            simp at hs
            rcases hs with hs | hs
            · exact Or.inl hs
            · rcases navLoop_statuses dest expected current_node CMD_FORWARD ev
                s hs with h | h
              · exact Or.inr (Or.inr (Or.inr (Or.inl h)))
              · exact Or.inr (Or.inr (Or.inr (Or.inr h)))
        | some t =>
            by_cases hts : (execute_simple_turn t tr).success = true
            · intro s hs
              simp only [hcd, hturn, hts] at hs
              simp [hts] at hs
              rcases hs with hs | hs | hs
              · exact Or.inl hs
              · have := turnPoll_statuses t tr s (by
                  simpa [execute_simple_turn] using hs)
                exact Or.inr (Or.inr (Or.inl ⟨t, this⟩))
              · rcases navLoop_statuses dest expected current_node CMD_FORWARD ev
                  s hs with h | h
                · exact Or.inr (Or.inr (Or.inr (Or.inl h)))
                · exact Or.inr (Or.inr (Or.inr (Or.inr h)))
            · intro s hs
              simp only [hcd, hturn, hts] at hs
              simp [hts] at hs
              rcases hs with hs | hs
              · exact Or.inl hs
              · have := turnPoll_statuses t tr s (by
                  simpa [execute_simple_turn] using hs)
                exact Or.inr (Or.inr (Or.inl ⟨t, this⟩))

/-- C4 counterexample: on the all-light reading (1,1,1) - the pattern the
spec's policy calls Lost - navigate_to_node does not stop, does not report
error:line_lost and does not fail at that iteration: the code's classifier
calls the reading CENTERED, the navigator keeps the forward command, and the
call fails only by reaching the navigation timeout. -/
theorem nav_all_light_no_line_lost_counterexample :
    (navigate_to_node "home" "RFJ1" (some "ab") []
        [⟨none, ⟨true, true, true⟩⟩]).statuses
      = ["moving_to:RFJ1", "error:nav_timeout:home->RFJ1"] ∧
    ((navigate_to_node "home" "RFJ1" (some "ab") []
        [⟨none, ⟨true, true, true⟩⟩]).statuses.contains "error:line_lost")
      = false ∧
    (navigate_to_node "home" "RFJ1" (some "ab") []
        [⟨none, ⟨true, true, true⟩⟩]).success = false ∧
    (navigate_to_node "home" "RFJ1" (some "ab") []
        [⟨none, ⟨true, true, true⟩⟩]).sent = [CMD_FORWARD, CMD_STOP] ∧
    get_state true true true = LINE_CENTERED := by
  decide

/-- C4 amended: the code's classifier never reports Lost (the Lost logic is
commented out), navigate_to_node has no line-lost branch, and consequently no
navigation call ever reports the error:line_lost status, whatever sensor
readings or serial lines arrive; a lost line can only surface as the
navigation timeout. -/
theorem nav_never_reports_line_lost :
    (∀ l c r : Bool, (get_state l c r == LINE_LOST) = false) ∧
    ∀ current_node dest uid tr ev,
      ((navigate_to_node current_node dest uid tr ev).statuses.contains
        "error:line_lost") = false := by
  constructor
  · decide
  · intro current_node dest uid tr ev
    have hmem : "error:line_lost" ∉
        (navigate_to_node current_node dest uid tr ev).statuses := by
      intro hs
      rcases navigate_to_node_statuses current_node dest uid tr ev _ hs with
        h | h | ⟨c, h⟩ | h | h
      · have h2 := congrArg String.data h.symm
        simp only [append_data] at h2
        simp at h2
      · have h2 := congrArg String.data h.symm
        simp only [append_data] at h2
        simp at h2
      · have h2 := congrArg String.data h.symm
        simp only [push_data] at h2
        simp at h2
      · have h2 := congrArg String.data h.symm
        simp only [append_data] at h2
        simp at h2
      · have h2 := congrArg String.data h.symm
        simp only [append_data] at h2
        simp at h2
    simpa using hmem

/-- When no iteration receives a matching RFID line, the navigation loop runs
to its timeout: the nav_timeout status is the only status reported and the
loop's last action is sending CMD_STOP. -/
theorem navLoop_no_match_timeout (dest expected node : String) (last : Char)
    (events : List NavEvent)
    (h : ∀ e ∈ events, isMatchingLine expected e.serialLine = false) :
    (navLoop dest expected node last events).statuses
        = ["error:nav_timeout:" ++ node ++ "->" ++ dest] ∧
    CMD_STOP ∈ (navLoop dest expected node last events).sent := by
  induction events generalizing last with
  | nil => simp [navLoop]
  | cons e rest ih =>
      have he : isMatchingLine expected e.serialLine = false := h e (by simp)
      have hrest : ∀ e ∈ rest, isMatchingLine expected e.serialLine = false :=
        fun e hmem => h e (by simp [hmem])
      obtain ⟨sl, sens⟩ := e
      cases sl with
      | none =>
          by_cases hreq :
              (requiredCommandFor (classify sens) last == last) = true
          · simpa [navLoop, hreq] using ih last hrest
          · have := ih (requiredCommandFor (classify sens) last) hrest
            refine ⟨?_, ?_⟩ <;> simp [navLoop, hreq, this.1, this.2]
      | some s =>
          by_cases hpre : strStartsWith s "RFID:" = true
          · by_cases huid : (strToLower (strDrop s 5) == expected) = true
            · simp [isMatchingLine, hpre, huid] at he
            · have := ih CMD_FORWARD hrest
              refine ⟨?_, ?_⟩ <;> simp [navLoop, hpre, huid, this.1, this.2]
          · by_cases hreq :
                (requiredCommandFor (classify sens) last == last) = true
            · simpa [navLoop, hpre, hreq] using ih last hrest
            · have := ih (requiredCommandFor (classify sens) last) hrest
              refine ⟨?_, ?_⟩ <;> simp [navLoop, hpre, hreq, this.1, this.2]

/-- When no polled reading satisfies the stop condition, the turn polling loop
runs to its timeout result. -/
theorem turnPoll_no_stop_timeout (turn_command : Char)
    (readings : List IrReading)
    (h : ∀ r ∈ readings, turnStopCondition r = false) :
    turnPoll turn_command readings
      = { success := false
          sent := [CMD_STOP]
          statuses := ["error:turn_timeout:".push turn_command] } := by
  induction readings with
  | nil => simp [turnPoll]
  | cons r rest ih =>
      have hr : turnStopCondition r = false := h r (by simp)
      simpa [turnPoll, hr] using ih fun x hx => h x (by simp [hx])

/-- C5: a turn call whose polled readings never satisfy the completion test,
and a navigation call that never receives a matching RFID line, return
failure once their polling budget (the event list standing for the 20 second
turn_timeout, respectively the 60 second navigation_timeout, both set in
Navigator.__init__) is exhausted, rather than looping on; each sends CMD_STOP
on timing out and reports its own error:*_timeout status, and the two timeout
status strings are distinct. -/
theorem timeout_returns_failure_stop_and_status
    (turn_command : Char) (readings : List IrReading)
    (current_node dest expected : String) (events : List NavEvent)
    (hread : ∀ r ∈ readings, turnStopCondition r = false)
    (hmatch : ∀ e ∈ events, isMatchingLine expected e.serialLine = false)
    (hne : (current_node == dest) = false)
    (hnoturn : get_turn_for_transition current_node dest = none) :
    ((execute_simple_turn turn_command readings).success = false ∧
     CMD_STOP ∈ (execute_simple_turn turn_command readings).sent ∧
     ("error:turn_timeout:".push turn_command)
        ∈ (execute_simple_turn turn_command readings).statuses) ∧
    ((navigate_to_node current_node dest (some expected) [] events).success
        = false ∧
     CMD_STOP ∈ (navigate_to_node current_node dest (some expected) [] events).sent ∧
     ("error:nav_timeout:" ++ current_node ++ "->" ++ dest)
        ∈ (navigate_to_node current_node dest (some expected) [] events).statuses) ∧
    navigation_timeout = 60 ∧ turn_timeout = 20 ∧
    (("error:turn_timeout:".push turn_command
        == "error:nav_timeout:" ++ current_node ++ "->" ++ dest) = false) := by
  have hturn := turnPoll_no_stop_timeout turn_command readings hread
  have hloop := navLoop_no_match_timeout dest expected current_node CMD_FORWARD
    events hmatch
  have hsucc :
      (navLoop dest expected current_node CMD_FORWARD events).success = false := by
    rcases navLoop_cases dest expected current_node CMD_FORWARD events with h | h
    · obtain ⟨e, he, hm⟩ := h.2.2
      exact absurd hm (by simp [hmatch e he])
    · exact h.1
  refine ⟨?_, ?_, rfl, rfl, ?_⟩
  · refine ⟨?_, ?_, ?_⟩ <;> simp [execute_simple_turn, hturn]
  · refine ⟨?_, ?_, ?_⟩ <;>
      simp [navigate_to_node, hne, hnoturn, hsucc, hloop.1, hloop.2]
  · rw [beq_eq_false_iff_ne]
    intro h
    have h2 := congrArg String.data h
    simp only [push_data, append_data] at h2
    simp at h2

/-- Witness for C5 at a concrete run: one non-stopping turn reading and one
mismatching navigation event, from home towards RFJ1 (a transition with no
initial turn). -/
theorem timeout_returns_failure_stop_and_status_witness :
    (∀ r ∈ ([⟨false, false, true⟩] : List IrReading),
        turnStopCondition r = false) ∧
    (∀ e ∈ ([⟨some "RFID:xx", ⟨true, false, true⟩⟩] : List NavEvent),
        isMatchingLine "ab" e.serialLine = false) ∧
    ("home" == "RFJ1") = false ∧
    get_turn_for_transition "home" "RFJ1" = none ∧
    (((execute_simple_turn CMD_RIGHT [⟨false, false, true⟩]).success = false ∧
      CMD_STOP ∈ (execute_simple_turn CMD_RIGHT [⟨false, false, true⟩]).sent ∧
      ("error:turn_timeout:".push CMD_RIGHT)
        ∈ (execute_simple_turn CMD_RIGHT [⟨false, false, true⟩]).statuses) ∧
     ((navigate_to_node "home" "RFJ1" (some "ab") []
          [⟨some "RFID:xx", ⟨true, false, true⟩⟩]).success = false ∧
      CMD_STOP ∈ (navigate_to_node "home" "RFJ1" (some "ab") []
          [⟨some "RFID:xx", ⟨true, false, true⟩⟩]).sent ∧
      ("error:nav_timeout:" ++ "home" ++ "->" ++ "RFJ1")
        ∈ (navigate_to_node "home" "RFJ1" (some "ab") []
            [⟨some "RFID:xx", ⟨true, false, true⟩⟩]).statuses) ∧
     navigation_timeout = 60 ∧ turn_timeout = 20 ∧
     (("error:turn_timeout:".push CMD_RIGHT
        == "error:nav_timeout:" ++ "home" ++ "->" ++ "RFJ1") = false)) :=
  ⟨by decide, by decide, by decide, by decide,
   timeout_returns_failure_stop_and_status CMD_RIGHT [⟨false, false, true⟩]
     "home" "RFJ1" "ab" [⟨some "RFID:xx", ⟨true, false, true⟩⟩]
     (by decide) (by decide) (by decide) (by decide)⟩

/-- The steering command a classified reading requires does not depend on the
previously sent command: get_state only produces the three states for which
requiredCommandFor returns a fixed command. -/
theorem requiredCommandFor_classify_irrel (s : IrReading) (x y : Char) :
    requiredCommandFor (classify s) x = requiredCommandFor (classify s) y := by
  obtain ⟨l, c, r⟩ := s
  cases l <;> cases c <;> cases r <;> rfl

/-- A list with an adjacent repeat has at least two elements. -/
theorem hasAdjRepeat_length (l : List String) (h : hasAdjRepeat l = true) :
    2 ≤ l.length := by
  match l with
  | [] => simp [hasAdjRepeat] at h
  | [a] => simp [hasAdjRepeat] at h
  | a :: b :: rest => simp

/-- On RFID-free iteration inputs the navigation loop sends at most one
command per iteration plus the final timeout stop. -/
theorem navLoop_corr_sent_le (dest expected node : String)
    (readings : List IrReading) :
    ∀ last : Char,
    (navLoop dest expected node last
        (readings.map fun r => ⟨none, r⟩)).sent.length ≤ readings.length + 1 := by
  induction readings with
  | nil => intro last; simp [navLoop]
  | cons a rest ih =>
      intro last
      by_cases hreq : (requiredCommandFor (classify a) last == last) = true
      · have := ih last
        simp [navLoop, hreq]
        omega
      · have := ih (requiredCommandFor (classify a) last)
        simp [navLoop, hreq]
        omega

/-- On RFID-free iteration inputs the navigation loop's last sent command is
the timeout stop. -/
theorem navLoop_corr_sent_getLast (dest expected node : String)
    (readings : List IrReading) :
    ∀ last : Char,
    (navLoop dest expected node last
        (readings.map fun r => ⟨none, r⟩)).sent.getLast? = some CMD_STOP := by
  induction readings with
  | nil => intro last; simp [navLoop]
  | cons a rest ih =>
      intro last
      by_cases hreq : (requiredCommandFor (classify a) last == last) = true
      · simpa [navLoop, hreq] using ih last
      · have h2 := ih (requiredCommandFor (classify a) last)
        rcases hsent : (navLoop dest expected node
            (requiredCommandFor (classify a) last)
            (rest.map fun r => ⟨none, r⟩)).sent with _ | ⟨x, xs⟩
        · rw [hsent] at h2; simp at h2
        · rw [hsent] at h2
          simp [navLoop, hreq, hsent, List.getLast?_cons_cons]
          simpa using h2

/-- With an adjacent repeat among the classifier outputs, the loop sends
strictly fewer correction commands than it runs iterations: the repeated
state's required command equals the command just sent, so it is
de-duplicated. -/
theorem navLoop_dedup_aux (dest expected node : String) :
    ∀ (readings : List IrReading) (last : Char),
    hasAdjRepeat (readings.map classify) = true →
    (navLoop dest expected node last
        (readings.map fun r => ⟨none, r⟩)).sent.length ≤ readings.length := by
  intro readings
  induction readings with
  | nil => intro last h; simp [List.map] at h; simp [hasAdjRepeat] at h
  | cons a rest ih =>
      intro last hrep
      rcases rest with _ | ⟨b, rest2⟩
      · simp [hasAdjRepeat] at hrep
      · simp only [List.map] at hrep
        rw [hasAdjRepeat] at hrep
        rw [Bool.or_eq_true] at hrep
        rcases hrep with heq | htail
        · -- adjacent repeat at the head: the command for b is de-duplicated
          have hb : requiredCommandFor (classify b)
                (requiredCommandFor (classify a) last)
              = requiredCommandFor (classify a) last := by
            have hab : classify a = classify b := by
              exact eq_of_beq heq
            rw [← hab]
            exact requiredCommandFor_classify_irrel a _ last
          by_cases hreq : (requiredCommandFor (classify a) last == last) = true
          · have hlast : requiredCommandFor (classify a) last = last :=
              eq_of_beq hreq
            have hb3 : requiredCommandFor (classify b) last = last := by
              conv_lhs => rw [← hlast]
              rw [hb, hlast]
            have hb2 : (requiredCommandFor (classify b) last == last) = true := by
              simp [hb3]
            have := navLoop_corr_sent_le dest expected node rest2 last
            simp [navLoop, hreq, hb2]
            omega
          · have hb2 : (requiredCommandFor (classify b)
                (requiredCommandFor (classify a) last)
                == requiredCommandFor (classify a) last) = true := by
              simp [hb]
            have := navLoop_corr_sent_le dest expected node rest2
              (requiredCommandFor (classify a) last)
            simp [navLoop, hreq, hb2]
            omega
        · -- the repeat is further down: apply the induction hypothesis
          have htail2 : hasAdjRepeat ((b :: rest2).map classify) = true := by
            simpa [List.map] using htail
          have h9a := ih last htail2
          have h9b := ih (requiredCommandFor (classify a) last) htail2
          rw [List.map_cons]
          generalize hevs : (b :: rest2).map
            (fun r => ({ serialLine := none, sensors := r } : NavEvent)) = evs
          rw [hevs] at h9a h9b
          simp only [List.length_cons] at h9a h9b
          by_cases hreq : (requiredCommandFor (classify a) last == last) = true
          · simp [navLoop, hreq]
            omega
          · simp [navLoop, hreq]
            omega

/-- C7: over an RFID-free run of the correction loop whose classifier outputs
contain a consecutive repeat, the commands sent by the line-correction branch
(everything before the final timeout stop, which is the last sent element)
number strictly fewer than the loop iterations: a command equal to the last
one sent is never re-sent. -/
theorem line_correction_dedup_sends (dest expected node : String)
    (readings : List IrReading)
    (hrep : hasAdjRepeat (readings.map classify) = true) :
    (navLoop dest expected node CMD_FORWARD
        (readings.map fun r => ⟨none, r⟩)).sent.getLast? = some CMD_STOP ∧
    ((navLoop dest expected node CMD_FORWARD
        (readings.map fun r => ⟨none, r⟩)).sent.dropLast).length
      < readings.length := by
  refine ⟨navLoop_corr_sent_getLast dest expected node readings CMD_FORWARD, ?_⟩
  have hle := navLoop_dedup_aux dest expected node readings CMD_FORWARD hrep
  have hlen : 2 ≤ readings.length := by
    have := hasAdjRepeat_length _ hrep
    simpa using this
  have hne : (navLoop dest expected node CMD_FORWARD
      (readings.map fun r => ⟨none, r⟩)).sent.getLast? = some CMD_STOP :=
    navLoop_corr_sent_getLast dest expected node readings CMD_FORWARD
  have hpos : 1 ≤ (navLoop dest expected node CMD_FORWARD
      (readings.map fun r => ⟨none, r⟩)).sent.length := by
    rcases hsent : (navLoop dest expected node CMD_FORWARD
        (readings.map fun r => ⟨none, r⟩)).sent with _ | ⟨x, xs⟩
    · rw [hsent] at hne; simp at hne
    · simp
  rw [List.length_dropLast]
  omega

/-- Witness for C7 at a concrete run: two consecutive centered readings; the
loop de-duplicates and sends nothing before the timeout stop. -/
theorem line_correction_dedup_sends_witness :
    hasAdjRepeat (([⟨true, false, true⟩, ⟨true, false, true⟩] :
        List IrReading).map classify) = true ∧
    ((navLoop "pdt1" "ab" "RFJ1" CMD_FORWARD
        (([⟨true, false, true⟩, ⟨true, false, true⟩] :
          List IrReading).map fun r => ⟨none, r⟩)).sent.getLast? = some CMD_STOP ∧
     ((navLoop "pdt1" "ab" "RFJ1" CMD_FORWARD
        (([⟨true, false, true⟩, ⟨true, false, true⟩] :
          List IrReading).map fun r => ⟨none, r⟩)).sent.dropLast).length
       < ([⟨true, false, true⟩, ⟨true, false, true⟩] :
          List IrReading).length) :=
  ⟨by decide,
   line_correction_dedup_sends "pdt1" "ab" "RFJ1"
     [⟨true, false, true⟩, ⟨true, false, true⟩] (by decide)⟩

/-- C6: the persisted-cart merge is additive per product id and keeps only
strictly positive quantities: merging an empty delta into a cart satisfying
the persisted-cart invariant (all quantities positive, as every cart this
code persists is) leaves it unchanged; merging the delta A:2 and then the
delta A:3 starting from an empty cart yields quantity 5 for A; and every
entry of a persisted result is strictly positive. -/
theorem cart_merge_additive_and_positive
    (existing : List (String × Int)) (delta : List (String × PyVal))
    (hpos : ∀ p ∈ existing, 0 < p.2) :
    finalCart existing [] = existing ∧
    finalCart (finalCart [] [("A", PyVal.pyInt 2)]) [("A", PyVal.pyInt 3)]
      = [("A", 5)] ∧
    ∀ q ∈ finalCart existing delta, 0 < q.2 := by
  refine ⟨?_, by decide, ?_⟩
  · unfold finalCart mergeCart
    simp only [List.foldl_nil]
    rw [List.filter_eq_self]
    intro a ha
    simpa using hpos a ha
  · intro q hq
    unfold finalCart at hq
    simpa using List.of_mem_filter hq

/-- Witness for C6 at a concrete pair of carts. -/
theorem cart_merge_additive_and_positive_witness :
    (∀ p ∈ ([("B", 1)] : List (String × Int)), 0 < p.2) ∧
    (finalCart [("B", 1)] [] = [("B", 1)] ∧
     finalCart (finalCart [] [("A", PyVal.pyInt 2)]) [("A", PyVal.pyInt 3)]
       = [("A", 5)] ∧
     ∀ q ∈ finalCart [("B", 1)] [("A", PyVal.pyNone)], 0 < q.2) :=
  ⟨by decide,
   cart_merge_additive_and_positive [("B", 1)] [("A", PyVal.pyNone)] (by decide)⟩

/-- Finding in a filtered list equals finding with the conjoined predicate. -/
theorem find?_filter_swap {α : Type} (l : List α) (p q : α → Bool) :
    (l.filter p).find? q = l.find? (fun a => p a && q a) := by
  induction l with
  | nil => simp
  | cons a rest ih =>
      by_cases hp : p a = true
      · by_cases hq : q a = true
        · simp [List.filter_cons, hp, hq, List.find?_cons]
        · simp [List.filter_cons, hp, hq, List.find?_cons, ih]
      · simp [List.filter_cons, hp, List.find?_cons, ih]

/-- A conjunct implied by the first on all elements can be dropped from a
find? predicate. -/
theorem find?_and_of_imp {α : Type} (l : List α) (p q : α → Bool)
    (h : ∀ a ∈ l, p a = true → q a = true) :
    l.find? (fun a => p a && q a) = l.find? p := by
  induction l with
  | nil => simp
  | cons a rest ih =>
      by_cases hp : p a = true
      · simp [List.find?_cons, hp, h a (by simp) hp]
      · simp [List.find?_cons, hp]
        exact ih fun x hx => h x (by simp [hx])

/-- Updating the value stored under a different key leaves the sublist of
entries keyed by pid untouched. -/
theorem filter_key_map_update (cart : List (String × Int)) (pid pid2 : String)
    (q : Int) (h : (pid2 == pid) = false) :
    (cart.map (fun p => if p.1 == pid2 then (p.1, q) else p)).filter
        (fun p => p.1 == pid)
      = cart.filter (fun p => p.1 == pid) := by
  have hne : pid2 ≠ pid := by simpa using h
  induction cart with
  | nil => simp
  | cons a rest ih =>
      by_cases hk2 : a.1 = pid2
      · have hk : ¬ a.1 = pid := by rw [hk2]; exact hne
        simpa [List.map_cons, List.filter_cons, hk2, hk, hne, Ne.symm hne]
          using ih
      · by_cases hk : a.1 = pid
        · simpa [List.map_cons, List.filter_cons, hk2, hk, hne, Ne.symm hne]
            using ih
        · simpa [List.map_cons, List.filter_cons, hk2, hk, hne, Ne.symm hne]
            using ih

/-- setq under a different key leaves the sublist of entries keyed by pid
untouched. -/
theorem filter_key_setq_ne (cart : List (String × Int)) (pid pid2 : String)
    (q : Int) (h : (pid2 == pid) = false) :
    (setq cart pid2 q).filter (fun p => p.1 == pid)
      = cart.filter (fun p => p.1 == pid) := by
  unfold setq
  by_cases hany : (cart.any fun p => p.1 == pid2) = true
  · simpa [hany] using filter_key_map_update cart pid pid2 q h
  · simp [hany, List.filter_append, h]

/-- An ignored delta entry leaves the cart unchanged. -/
theorem mergeItem_ignored (cart : List (String × Int)) (pid : String)
    (v : PyVal) (h : ignoredEntry pid v = true) : mergeItem cart pid v = cart := by
  unfold mergeItem
  unfold ignoredEntry at h
  by_cases h1 : (pid == "processed" || pid == "action") = true
  · simp [h1]
  · simp only [h1, Bool.false_or] at h
    cases hv : pyToInt v with
    | none => simp [h1, hv]
    | some n => rw [hv] at h; simp at h

/-- One merge step on a different key leaves the sublist of entries keyed by
pid untouched. -/
theorem filter_key_mergeItem_ne (cart : List (String × Int))
    (pid pid2 : String) (v : PyVal) (h : (pid2 == pid) = false) :
    (mergeItem cart pid2 v).filter (fun p => p.1 == pid)
      = cart.filter (fun p => p.1 == pid) := by
  unfold mergeItem
  by_cases h1 : (pid2 == "processed" || pid2 == "action") = true
  · simp [h1]
  · cases hv : pyToInt v with
    | none => simp [h1, hv]
    | some n =>
        simpa [h1, hv] using
          filter_key_setq_ne cart pid pid2 (getq cart pid2 + n) h

/-- mergeCart on a list one step longer. -/
theorem mergeCart_cons (existing : List (String × Int)) (e : String × PyVal)
    (rest : List (String × PyVal)) :
    mergeCart existing (e :: rest) = mergeCart (mergeItem existing e.1 e.2) rest := rfl

/-- When every delta entry keyed by pid is ignored by the merge loop, the
whole merge leaves the sublist of entries keyed by pid untouched. -/
theorem filter_key_mergeCart (pid : String) (delta : List (String × PyVal)) :
    ∀ existing : List (String × Int),
    (∀ e ∈ delta, (e.1 == pid) = true → ignoredEntry e.1 e.2 = true) →
    (mergeCart existing delta).filter (fun p => p.1 == pid)
      = existing.filter (fun p => p.1 == pid) := by
  induction delta with
  | nil => intro existing h; simp [mergeCart]
  | cons e rest ih =>
      intro existing h
      have hrest : ∀ x ∈ rest, (x.1 == pid) = true → ignoredEntry x.1 x.2 = true :=
        fun x hx => h x (by simp [hx])
      rw [mergeCart_cons]
      by_cases hk : (e.1 == pid) = true
      · rw [mergeItem_ignored existing e.1 e.2 (h e (by simp) hk)]
        exact ih existing hrest
      · rw [ih (mergeItem existing e.1 e.2) hrest]
        exact filter_key_mergeItem_ne existing pid e.1 e.2
          (Bool.eq_false_iff.mpr hk)

/-- C9: the merge ignores the reserved keys processed and action and every
delta entry whose quantity int() cannot convert: for such an entry's product
id, the persisted cart's entry (present or absent, and its quantity) is
exactly what it was before the merge, given the persisted-cart invariant that
existing quantities are positive and that delta keys are unique (a dict). -/
theorem cart_merge_ignores_reserved_and_unconvertible
    (existing : List (String × Int)) (delta : List (String × PyVal))
    (pid : String) (v : PyVal)
    (hmem : (pid, v) ∈ delta)
    (hnodup : (delta.map Prod.fst).Nodup)
    (hign : ignoredEntry pid v = true)
    (hpos : ∀ p ∈ existing, 0 < p.2) :
    (finalCart existing delta).find? (fun p => p.1 == pid)
      = existing.find? (fun p => p.1 == pid) := by
  have hall : ∀ e ∈ delta, (e.1 == pid) = true → ignoredEntry e.1 e.2 = true := by
    intro e he hk
    have hk2 : e.1 = pid := by simpa using hk
    have heq : e = (pid, v) := by
      exact List.inj_on_of_nodup_map hnodup he hmem (by simpa using hk2)
    rw [heq]
    exact hign
  have hfilter := filter_key_mergeCart pid delta existing hall
  unfold finalCart
  rw [find?_filter_swap]
  have hcomm : (fun a : String × Int => decide (0 < a.2) && (a.1 == pid))
      = (fun a : String × Int => (a.1 == pid) && decide (0 < a.2)) := by
    funext a
    exact Bool.and_comm _ _
  rw [hcomm, ← find?_filter_swap, hfilter, find?_filter_swap]
  exact find?_and_of_imp existing _ _ (fun a ha hk => by simpa using hpos a ha)

/-- Witness for C9: a delta whose entry for A is null and whose other entry
adds a new product; the persisted entry for A is untouched. -/
theorem cart_merge_ignores_reserved_and_unconvertible_witness :
    ("A", PyVal.pyNone) ∈ ([("A", PyVal.pyNone), ("B", PyVal.pyInt 1)] :
        List (String × PyVal)) ∧
    (([("A", PyVal.pyNone), ("B", PyVal.pyInt 1)] :
        List (String × PyVal)).map Prod.fst).Nodup ∧
    ignoredEntry "A" PyVal.pyNone = true ∧
    (∀ p ∈ ([("A", 2)] : List (String × Int)), 0 < p.2) ∧
    (finalCart [("A", 2)] [("A", PyVal.pyNone), ("B", PyVal.pyInt 1)]).find?
        (fun p => p.1 == "A")
      = ([("A", 2)] : List (String × Int)).find? (fun p => p.1 == "A") :=
  ⟨by decide, by decide, by decide, by decide,
   cart_merge_ignores_reserved_and_unconvertible [("A", 2)]
     [("A", PyVal.pyNone), ("B", PyVal.pyInt 1)] "A" PyVal.pyNone
     (by decide) (by decide) (by decide) (by decide)⟩

/-- C8: for a request whose processing raises, the boundary reports
error:critical_processing_exception, sends the stop command, and deletes the
processing flag; and on every exit path of request handling (success or
exception) the processing flag is deleted exactly when it was set. -/
theorem callback_exception_boundary_cleanup
    (event_type request_id : String) (dataIsSome alreadyProcessing : Bool)
    (outcome : Except String Unit) (err : String)
    (hput : (event_type == "put" || event_type == "patch") = true)
    (hrid : (request_id == "" || request_id == "trolleyRequests" || !dataIsSome)
      = false)
    (hproc : alreadyProcessing = false)
    (herr : outcome = Except.error err) :
    ((handle_new_request_callback event_type request_id dataIsSome
        alreadyProcessing outcome).statuses
      = ["error:critical_processing_exception"] ∧
     CMD_STOP ∈ (handle_new_request_callback event_type request_id dataIsSome
        alreadyProcessing outcome).commands ∧
     (handle_new_request_callback event_type request_id dataIsSome
        alreadyProcessing outcome).flagSet = true ∧
     (handle_new_request_callback event_type request_id dataIsSome
        alreadyProcessing outcome).flagDeleted = true) ∧
    ∀ (et rid : String) (d ap : Bool) (o : Except String Unit),
      (handle_new_request_callback et rid d ap o).flagDeleted
        = (handle_new_request_callback et rid d ap o).flagSet := by
  constructor
  · subst herr
    refine ⟨?_, ?_, ?_, ?_⟩ <;>
      simp [handle_new_request_callback, hput, hrid, hproc]
  · intro et rid d ap o
    unfold handle_new_request_callback
    by_cases h1 : (et == "put" || et == "patch") = true
    · by_cases h2 : (rid == "" || rid == "trolleyRequests" || !d) = true
      · simp [h1, h2]
      · by_cases h3 : ap = true
        · simp [h1, h2, h3]
        · cases o <;> simp [h1, h2, h3]
    · simp [h1]

/-- Witness for C8 at a concrete failing request. -/
theorem callback_exception_boundary_cleanup_witness :
    (("put" == "put" || "put" == "patch") = true) ∧
    (("req1" == "" || "req1" == "trolleyRequests" || !true) = false) ∧
    (((handle_new_request_callback "put" "req1" true false
        (Except.error "boom")).statuses
       = ["error:critical_processing_exception"] ∧
      CMD_STOP ∈ (handle_new_request_callback "put" "req1" true false
        (Except.error "boom")).commands ∧
      (handle_new_request_callback "put" "req1" true false
        (Except.error "boom")).flagSet = true ∧
      (handle_new_request_callback "put" "req1" true false
        (Except.error "boom")).flagDeleted = true) ∧
     ∀ (et rid : String) (d ap : Bool) (o : Except String Unit),
       (handle_new_request_callback et rid d ap o).flagDeleted
         = (handle_new_request_callback et rid d ap o).flagSet) :=
  ⟨by decide, by decide,
   callback_exception_boundary_cleanup "put" "req1" true false
     (Except.error "boom") "boom" (by decide) (by decide) rfl rfl⟩

/-- The final node of a reverse call is either the starting node or the
destination, whatever serial lines arrive. -/
theorem reverse_until_node_finalNode_mem (current_node dest : String)
    (uid : Option String) (lines : List (Option String)) :
    (reverse_until_node current_node dest uid lines).finalNode = current_node ∨
    (reverse_until_node current_node dest uid lines).finalNode = dest := by
  unfold reverse_until_node
  by_cases hhome : (current_node == "home" || dest == "home") = true
  · simp [hhome]
  · cases uid with
    | none => simp [hhome]
    | some expected =>
        rcases reverseLoop_cases dest expected current_node lines with h | h <;>
          simp [hhome, h.2.1]

/-- C10: current_node can only hold NODE_MAPPING keys.
set_current_position leaves current_node unchanged on a name outside
NODE_MAPPING and otherwise assigns a NODE_MAPPING key; navigate_to_node and
reverse_until_node do not move when the destination UID does not resolve
against the registry and otherwise move at most to their destination, so a
mapped current node stays mapped whenever the destination is mapped; and
every destination name the controller itself forms - home, the product ids
carrying a PRODUCT_ROWS assignment, and the RFJ/RBJ junctions of rows 1-3 -
is a NODE_MAPPING key. -/
theorem current_node_stays_in_node_mapping
    (current_node node_name dest : String) (uid : Option String)
    (tr : List IrReading) (ev : List NavEvent) (lines : List (Option String))
    (hcur : inNodeMapping current_node = true)
    (hname : inNodeMapping node_name = false)
    (hdest : inNodeMapping dest = true) :
    set_current_position current_node node_name = current_node ∧
    (∀ other : String,
      inNodeMapping (set_current_position current_node other) = true) ∧
    (navigate_to_node current_node dest none tr ev).finalNode = current_node ∧
    (reverse_until_node current_node dest none lines).finalNode = current_node ∧
    inNodeMapping ((navigate_to_node current_node dest uid tr ev).finalNode)
      = true ∧
    inNodeMapping ((reverse_until_node current_node dest uid lines).finalNode)
      = true ∧
    inNodeMapping "home" = true ∧
    (∀ p ∈ PRODUCT_ROWS, inNodeMapping p.1 = true) ∧
    (∀ n ∈ ([1, 2, 3] : List Nat),
      inNodeMapping ("RFJ" ++ Nat.repr n) = true ∧
      inNodeMapping ("RBJ" ++ Nat.repr n) = true) := by
  refine ⟨?_, ?_, ?_, ?_, ?_, ?_, by decide, by decide, by decide⟩
  · unfold set_current_position
    by_cases hnh : (node_name == "home") = true
    · have : node_name = "home" := by simpa using hnh
      rw [this] at hname
      exact absurd hname (by decide)
    · simp [hname, hnh]
  · intro other
    unfold set_current_position
    by_cases h1 : inNodeMapping other = true
    · simp [h1]
    · by_cases h2 : (other == "home") = true
      · have : other = "home" := by simpa using h2
        simp [h1, h2, this]
        decide
      · simp [h1, h2]
        exact hcur
  · unfold navigate_to_node
    by_cases hcd : (current_node == dest) = true
    · simp [hcd]
    · simp [hcd]
  · unfold reverse_until_node
    by_cases hhome : (current_node == "home" || dest == "home") = true
    · simp [hhome]
    · simp [hhome]
  · rcases navigate_to_node_finalNode_mem current_node dest uid tr ev with h | h <;>
      rw [h] <;> assumption
  · rcases reverse_until_node_finalNode_mem current_node dest uid lines with
      h | h <;> rw [h] <;> assumption

/-- Witness for C10 at concrete nodes: an unmapped name is rejected while a
navigation from RFJ1 towards pdt1 stays inside the mapping. -/
theorem current_node_stays_in_node_mapping_witness :
    inNodeMapping "RFJ1" = true ∧
    inNodeMapping "nowhere" = false ∧
    inNodeMapping "pdt1" = true ∧
    (set_current_position "RFJ1" "nowhere" = "RFJ1" ∧
     (∀ other : String,
       inNodeMapping (set_current_position "RFJ1" other) = true) ∧
     (navigate_to_node "RFJ1" "pdt1" none [] []).finalNode = "RFJ1" ∧
     (reverse_until_node "RFJ1" "pdt1" none []).finalNode = "RFJ1" ∧
     inNodeMapping ((navigate_to_node "RFJ1" "pdt1" (some "ab") []
        []).finalNode) = true ∧
     inNodeMapping ((reverse_until_node "RFJ1" "pdt1" (some "ab")
        []).finalNode) = true ∧
     inNodeMapping "home" = true ∧
     (∀ p ∈ PRODUCT_ROWS, inNodeMapping p.1 = true) ∧
     (∀ n ∈ ([1, 2, 3] : List Nat),
       inNodeMapping ("RFJ" ++ Nat.repr n) = true ∧
       inNodeMapping ("RBJ" ++ Nat.repr n) = true)) :=
  ⟨by decide, by decide, by decide,
   current_node_stays_in_node_mapping "RFJ1" "nowhere" "pdt1" (some "ab")
     [] [] [] (by decide) (by decide) (by decide)⟩

end Trolley
